import Mathlib

/-!
Verification of the URI-composition layer of `GDataDocumentsQuery`
(`gdata/services/documents/gdata-documents-query.c`).

The builder state (`GDataDocumentsQueryPrivate`), its setters and accessors, and
the composition step `get_query_uri` are shallowly embedded below.  The parent
class `GDataQuery` is an external collaborator: its own composition step is
abstracted as a function `baseStep : String → Bool → String × Bool` threading
the in-progress URI buffer and the params-started flag, and its `entry_id`
field is passed in as an `Option String` (mirroring `gdata_query_get_entry_id`).
-/

namespace GDataDocs

/-- The hexadecimal digit table used by GLib's percent-escaping
(`"0123456789ABCDEF"[n]`). Indices above 15 cannot occur for nibbles. -/
def hexDigitChar : Nat → Char
  | 0 => '0' | 1 => '1' | 2 => '2' | 3 => '3' | 4 => '4' | 5 => '5' | 6 => '6' | 7 => '7'
  | 8 => '8' | 9 => '9' | 10 => 'A' | 11 => 'B' | 12 => 'C' | 13 => 'D' | 14 => 'E' | _ => 'F'

/-- The sixteen uppercase hexadecimal digits. -/
def hexChars : List Char :=
  ['0', '1', '2', '3', '4', '5', '6', '7', '8', '9', 'A', 'B', 'C', 'D', 'E', 'F']

/-- RFC 3986 unreserved characters, as accepted unescaped by
`g_uri_escape_string` with no extra reserved characters allowed. -/
def isUnreservedChar (c : Char) : Bool :=
  c.isAlpha || c.isDigit || c == '-' || c == '.' || c == '_' || c == '~'

/-- Escaping of a single character by `g_string_append_uri_escaped (buf, s, NULL, TRUE)`:
unreserved characters pass through, non-ASCII characters pass through
(`allow_utf8 = TRUE`; Lean characters are always valid scalars), everything
else becomes a percent-escaped byte. -/
def uriEscapeChar (c : Char) : List Char :=
  if isUnreservedChar c then [c]
  else if 0x80 ≤ c.toNat then [c]
  else ['%', hexDigitChar (c.toNat / 16), hexDigitChar (c.toNat % 16)]

/-- Character-list version of the percent-escaping of a whole string. -/
def uriEscapeList : List Char → List Char
  | [] => []
  | c :: t => uriEscapeChar c ++ uriEscapeList t

/-- Model of `g_string_append_uri_escaped (buf, s, NULL, TRUE)` applied to `s`
(the appended text; the call appends it to the buffer). -/
def uriEscape (s : String) : String := ⟨uriEscapeList s.data⟩

/-- The error taxonomy of the component: the only failure is rejecting an
empty or absent required string (`g_return_if_fail` on the address). -/
inductive GDataError
  | invalidArgument
deriving DecidableEq, Repr

/-- Modelled from the spec: the `GDataGDEmailAddress` value object
(`gd/gdata-gd-email-address.c` is not part of the sources given; §3 of the
spec describes it as an immutable value with a required non-empty address, a
relation tag, an optional display name and a primary flag, of which only the
address participates in URI rendering). -/
structure GDataGDEmailAddress where
  address : String
  relation_type : String
  label : Option String
  primary : Bool
deriving DecidableEq, Repr

/-- Modelled from the spec: the `EmailPrincipal` factory
(`new_principal(address, relation_tag, display_name, is_primary)`), failing
with `InvalidArgument` when the address is empty or absent. -/
def gdata_gd_email_address_new (address : Option String) (relation_type : String)
    (label : Option String) (primary : Bool) : Except GDataError GDataGDEmailAddress :=
  match address with
  | none => .error .invalidArgument
  | some a => if a = "" then .error .invalidArgument else .ok ⟨a, relation_type, label, primary⟩

/-- The private field block of `GDataDocumentsQuery`
(`struct _GDataDocumentsQueryPrivate`).  `gchar *` fields are `Option String`
(`NULL` is `none`); the two `GList`s keep insertion order. -/
structure GDataDocumentsQueryPrivate where
  show_deleted : Bool
  show_folders : Bool
  exact_title : Bool
  folder_id : Option String
  title : Option String
  collaborator_addresses : List GDataGDEmailAddress
  reader_addresses : List GDataGDEmailAddress
deriving DecidableEq, Repr

/-- A freshly constructed query: GObject zero-initialises the private struct,
so the booleans are `FALSE`, the strings `NULL` and the lists empty. -/
def defaultPriv : GDataDocumentsQueryPrivate :=
  ⟨false, false, false, none, none, [], []⟩

/-- `gdata_documents_query_set_show_deleted`. -/
def gdata_documents_query_set_show_deleted (q : GDataDocumentsQueryPrivate)
    (show_deleted : Bool) : GDataDocumentsQueryPrivate :=
  { q with show_deleted := show_deleted }

/-- `gdata_documents_query_show_deleted` (the accessor). -/
def gdata_documents_query_show_deleted (q : GDataDocumentsQueryPrivate) : Bool :=
  q.show_deleted

/-- `gdata_documents_query_set_show_folders`. -/
def gdata_documents_query_set_show_folders (q : GDataDocumentsQueryPrivate)
    (show_folders : Bool) : GDataDocumentsQueryPrivate :=
  { q with show_folders := show_folders }

/-- `gdata_documents_query_show_folders` (the accessor). -/
def gdata_documents_query_show_folders (q : GDataDocumentsQueryPrivate) : Bool :=
  q.show_folders

/-- `gdata_documents_query_set_folder_id`: `g_free` the old value and store a
`g_strdup` copy of the argument (`g_strdup (NULL) = NULL`, and a copy of an
empty string is an empty string, distinct from `NULL`). -/
def gdata_documents_query_set_folder_id (q : GDataDocumentsQueryPrivate)
    (folder_id : Option String) : GDataDocumentsQueryPrivate :=
  { q with folder_id := folder_id }

/-- `gdata_documents_query_get_folder_id`. -/
def gdata_documents_query_get_folder_id (q : GDataDocumentsQueryPrivate) : Option String :=
  q.folder_id

/-- `gdata_documents_query_set_title`: stores a copy of `title` and assigns
`exact_title` at the same time (the C function sets both fields on every call). -/
def gdata_documents_query_set_title (q : GDataDocumentsQueryPrivate)
    (title : Option String) (exact_title : Bool) : GDataDocumentsQueryPrivate :=
  { q with title := title, exact_title := exact_title }

/-- `gdata_documents_query_get_title`. -/
def gdata_documents_query_get_title (q : GDataDocumentsQueryPrivate) : Option String :=
  q.title

/-- `gdata_documents_query_get_exact_title`. -/
def gdata_documents_query_get_exact_title (q : GDataDocumentsQueryPrivate) : Bool :=
  q.exact_title

/-- `gdata_documents_query_get_collaborator_addresses`. -/
def gdata_documents_query_get_collaborator_addresses (q : GDataDocumentsQueryPrivate) :
    List GDataGDEmailAddress :=
  q.collaborator_addresses

/-- `gdata_documents_query_get_reader_addresses`. -/
def gdata_documents_query_get_reader_addresses (q : GDataDocumentsQueryPrivate) :
    List GDataGDEmailAddress :=
  q.reader_addresses

/-- `gdata_documents_query_add_reader`: `g_return_if_fail` rejects a `NULL` or
empty address (modelled as an `invalidArgument` failure that leaves the query
untouched); otherwise a new `GDataGDEmailAddress` with relation type
`"reader"` is built and `g_list_append`ed to the reader list. -/
def gdata_documents_query_add_reader (q : GDataDocumentsQueryPrivate)
    (email_address : Option String) : GDataDocumentsQueryPrivate × Option GDataError :=
  match email_address with
  | none => (q, some .invalidArgument)
  | some a =>
    if a = "" then (q, some .invalidArgument)
    else
      match gdata_gd_email_address_new (some a) "reader" none false with
      | .error e => (q, some e)
      | .ok addr => ({ q with reader_addresses := q.reader_addresses ++ [addr] }, none)

/-- `gdata_documents_query_add_collaborator`: identical to the reader case, but
the relation type is `"collaborator"` and the collaborator list is extended. -/
def gdata_documents_query_add_collaborator (q : GDataDocumentsQueryPrivate)
    (email_address : Option String) : GDataDocumentsQueryPrivate × Option GDataError :=
  match email_address with
  | none => (q, some .invalidArgument)
  | some a =>
    if a = "" then (q, some .invalidArgument)
    else
      match gdata_gd_email_address_new (some a) "collaborator" none false with
      | .error e => (q, some e)
      | .ok addr => ({ q with collaborator_addresses := q.collaborator_addresses ++ [addr] }, none)

/-- The property ids installed by `gdata_documents_query_class_init`. -/
inductive GDataDocumentsQueryProperty
  | prop_show_deleted
  | prop_show_folders
  | prop_exact_title
  | prop_folder_id
  | prop_title
deriving DecidableEq, Repr

/-- The typed contents of the `GValue` handed to `set_property`: boolean
properties carry a `gboolean`, string properties a possibly-`NULL` `gchar *`. -/
inductive GValueContent
  | boolean (b : Bool)
  | string (s : Option String)
deriving DecidableEq, Repr

/-- `gdata_documents_query_set_property`: the generic GObject property setter.
Note the `PROP_TITLE` branch calls `gdata_documents_query_set_title (self,
g_value_get_string (value), TRUE)`, hard-coding `exact_title` to `TRUE`,
while `PROP_EXACT_TITLE` writes the private field directly.  A type-mismatched
`GValue` cannot reach this function through GObject, so it is a no-op here. -/
def gdata_documents_query_set_property (q : GDataDocumentsQueryPrivate)
    (property_id : GDataDocumentsQueryProperty) (value : GValueContent) :
    GDataDocumentsQueryPrivate :=
  match property_id, value with
  | .prop_show_deleted, .boolean v => gdata_documents_query_set_show_deleted q v
  | .prop_show_folders, .boolean v => gdata_documents_query_set_show_folders q v
  | .prop_exact_title, .boolean v => { q with exact_title := v }
  | .prop_folder_id, .string v => gdata_documents_query_set_folder_id q v
  | .prop_title, .string v => gdata_documents_query_set_title q v true
  | _, _ => q

/-- The separator character chosen by the `APPEND_SEP` macro:
`(*params_started == FALSE) ? '?' : '&'` (after which the flag is set). -/
def sepChar (started : Bool) : Char := if started then '&' else '?'

/-- The one-character string appended by `APPEND_SEP`. -/
def appendSep (started : Bool) : String := ⟨[sepChar started]⟩

/-- The tail of an address-list parameter: the loop body
`g_string_append_c (uri, ';'); g_string_append_uri_escaped (uri, addr, NULL, TRUE)`
run over every address after the first. -/
def escTail : List GDataGDEmailAddress → String
  | [] => ""
  | a :: t => ";" ++ uriEscape a.address ++ escTail t

/-- One address-list block of `get_query_uri` (used for `writer=` and
`reader=`): nothing for an empty list, otherwise `APPEND_SEP`, the parameter
name, the first address escaped, and the semicolon-joined escaped rest.
Returns the appended text and the updated params-started flag. -/
def addressesParam (name : String) (addrs : List GDataGDEmailAddress) (started : Bool) :
    String × Bool :=
  match addrs with
  | [] => ("", started)
  | a :: rest => (appendSep started ++ name ++ uriEscape a.address ++ escTail rest, true)

/-- The title block of `get_query_uri`: nothing when `priv->title` is `NULL`,
otherwise `APPEND_SEP`, `title=`, the escaped title, and — when
`priv->exact_title` — the literal suffix `&title-exact=true`. -/
def titleParam (title : Option String) (exact_title started : Bool) : String × Bool :=
  match title with
  | none => ("", started)
  | some t =>
    (appendSep started ++ "title=" ++ uriEscape t ++
      (if exact_title then "&title-exact=true" else ""), true)

/-- The unconditional visibility-flag block of `get_query_uri`: `APPEND_SEP`,
then `showdeleted=true|false`, then `&showfolders=true|false`. -/
def flagsParam (show_deleted show_folders started : Bool) : String :=
  appendSep started ++
    (if show_deleted then "showdeleted=true" else "showdeleted=false") ++
    (if show_folders then "&showfolders=true" else "&showfolders=false")

/-- The writer block with its input flag threaded from the caller. -/
def wPart (priv : GDataDocumentsQueryPrivate) (started : Bool) : String × Bool :=
  addressesParam "writer=" priv.collaborator_addresses started

/-- The reader block, running on the flag left by the writer block. -/
def rPart (priv : GDataDocumentsQueryPrivate) (started : Bool) : String × Bool :=
  addressesParam "reader=" priv.reader_addresses (wPart priv started).2

/-- The title block, running on the flag left by the reader block. -/
def tPart (priv : GDataDocumentsQueryPrivate) (started : Bool) : String × Bool :=
  titleParam priv.title priv.exact_title (rPart priv started).2

/-- The visibility-flag block, running on the flag left by the title block. -/
def fPart (priv : GDataDocumentsQueryPrivate) (started : Bool) : String :=
  flagsParam priv.show_deleted priv.show_folders (tPart priv started).2

/-- Everything `get_query_uri` appends after the chain-up when `entry_id` is
absent: writer list, reader list, title, visibility flags, in that order. -/
def docParams (priv : GDataDocumentsQueryPrivate) (started : Bool) : String :=
  (wPart priv started).1 ++ (rPart priv started).1 ++ (tPart priv started).1 ++
    fPart priv started

/-- The path-extension step at the top of `get_query_uri`:
`if (entry_id == NULL && priv->folder_id != NULL)` append the literal
`"/folder%3A"` and the escaped folder id to the buffer, before the chain-up. -/
def withFolderPath (entry_id folder_id : Option String) (query_uri : String) : String :=
  match entry_id, folder_id with
  | none, some fid => query_uri ++ "/folder%3A" ++ uriEscape fid
  | _, _ => query_uri

/-- `get_query_uri` (the `GDataQueryClass::get_query_uri` override): extend the
path with the folder segment when applicable, chain up to the parent class
(`baseStep`), return immediately if `entry_id` is set, and otherwise append
the document-specific parameters.  The result is the final buffer contents
together with the final params-started flag. -/
def get_query_uri (priv : GDataDocumentsQueryPrivate) (entry_id : Option String)
    (baseStep : String → Bool → String × Bool) (query_uri : String)
    (params_started : Bool) : String × Bool :=
  let sb := baseStep (withFolderPath entry_id priv.folder_id query_uri) params_started
  match entry_id with
  | some _ => sb
  | none => (sb.1 ++ docParams priv sb.2, true)

/-- The chained-up parent output inside `get_query_uri` for the
collection (no-entry-id) case. -/
def baseOut (priv : GDataDocumentsQueryPrivate)
    (baseStep : String → Bool → String × Bool) (query_uri : String)
    (params_started : Bool) : String × Bool :=
  baseStep (withFolderPath none priv.folder_id query_uri) params_started

/-- State-passing form of `get_query_uri`: the C function only reads
`priv` (it assigns no field of the builder), so the threaded builder state
comes back unchanged. -/
def get_query_uri_st (priv : GDataDocumentsQueryPrivate) (entry_id : Option String)
    (baseStep : String → Bool → String × Bool) (query_uri : String)
    (params_started : Bool) : (String × Bool) × GDataDocumentsQueryPrivate :=
  (get_query_uri priv entry_id baseStep query_uri params_started, priv)

/-- `isPrefOf pat l` decides whether `pat` is a prefix of `l`. -/
def isPrefOf : List Char → List Char → Bool
  | [], _ => true
  | _ :: _, [] => false
  | a :: p, b :: l => a == b && isPrefOf p l

/-- `countSub pat s` counts the positions of `s` at which `pat` occurs. -/
def countSub (pat : List Char) : List Char → Nat
  | [] => 0
  | c :: t => (if isPrefOf pat (c :: t) = true then 1 else 0) + countSub pat t

/-- The `writer=` parameter marker. -/
def wpat : List Char := ("writer=" : String).data

/-- The `reader=` parameter marker. -/
def rpat : List Char := ("reader=" : String).data

/-- The `title=` parameter marker. -/
def tpat : List Char := ("title=" : String).data

/-- The `title-exact=` parameter marker. -/
def tepat : List Char := ("title-exact=" : String).data

/-- A string that is empty or starts with one of the two query-string
separator characters; every block of `docParams` has this shape. -/
def SepHeaded (l : List Char) : Prop :=
  l = [] ∨ (∃ r, l = '?' :: r) ∨ (∃ r, l = '&' :: r)

/-- The identity base step, used to instantiate theorems on concrete inputs:
a parent composition step that appends nothing. -/
def bs0 : String → Bool → String × Bool := fun u c => (u, c)

/-- A sample collaborator principal for concrete instantiations. -/
def collabA : GDataGDEmailAddress := ⟨"a@x.com", "collaborator", none, false⟩

/-- A sample reader principal for concrete instantiations. -/
def readerB : GDataGDEmailAddress := ⟨"b@y.com", "reader", none, false⟩

/-- A sample query with one collaborator and one reader. -/
def privW : GDataDocumentsQueryPrivate :=
  { defaultPriv with collaborator_addresses := [collabA], reader_addresses := [readerB] }

/-- A sample query with a title and an exact-title match requested. -/
def privT : GDataDocumentsQueryPrivate :=
  { defaultPriv with title := some "Annual Report", exact_title := true }

/-- A sample query with `exact_title` set but no title. -/
def privTE : GDataDocumentsQueryPrivate := { defaultPriv with exact_title := true }

/-! ### String and list infrastructure -/

theorem sdata_append (a b : String) : (a ++ b).data = a.data ++ b.data := rfl

theorem str_ext {a b : String} (h : a.data = b.data) : a = b := by
  cases a; cases b; exact congrArg String.mk h

theorem sappend_nil (a : String) : a ++ "" = a := by
  apply str_ext; simp [sdata_append]

theorem sappend_assoc (a b c : String) : a ++ b ++ c = a ++ (b ++ c) := by
  apply str_ext; simp [sdata_append]

theorem drop_app (x k : List Char) (n : Nat) : (x ++ k).drop (x.length + n) = k.drop n := by
  induction x with
  | nil => simp
  | cons a t ih =>
    have h1 : (a :: t).length + n = (t.length + n) + 1 := by simp [List.length_cons]; omega
    rw [List.cons_append, h1, List.drop_succ_cons, ih]

theorem drop_sub_append {k w : List Char} (x : List Char) (hk : w.length ≤ k.length) :
    (x ++ k).drop ((x ++ k).length - w.length) = k.drop (k.length - w.length) := by
  have h1 : (x ++ k).length - w.length = x.length + (k.length - w.length) := by
    rw [List.length_append]; omega
  rw [h1, drop_app]

theorem isPrefOf_nil (l : List Char) : isPrefOf [] l = true := by
  cases l <;> rfl

theorem isPrefOf_cons (a : Char) (p : List Char) (b : Char) (l : List Char) :
    isPrefOf (a :: p) (b :: l) = (a == b && isPrefOf p l) := rfl

theorem mem_of_isPrefOf {p l : List Char} (h : isPrefOf p l = true) :
    ∀ x ∈ p, x ∈ l := by
  induction p generalizing l with
  | nil => intro x hx; cases hx
  | cons a p ih =>
    cases l with
    | nil => cases h
    | cons b t =>
      rw [isPrefOf_cons, Bool.and_eq_true] at h
      obtain ⟨h1, h2⟩ := h
      have hab : a = b := eq_of_beq h1
      intro x hx
      rcases List.mem_cons.mp hx with rfl | hx'
      · rw [hab]; exact List.mem_cons_self b t
      · exact List.mem_cons_of_mem b (ih h2 x hx')

theorem countSub_nil (pat : List Char) : countSub pat [] = 0 := rfl

theorem countSub_cons (pat : List Char) (c : Char) (t : List Char) :
    countSub pat (c :: t) =
      (if isPrefOf pat (c :: t) = true then 1 else 0) + countSub pat t := rfl

theorem countSub_eq_zero {pat s : List Char} (c : Char) (hc : c ∈ pat) (hs : c ∉ s) :
    countSub pat s = 0 := by
  induction s with
  | nil => rfl
  | cons a t ih =>
    rw [countSub_cons]
    have h1 : ¬ (isPrefOf pat (a :: t) = true) := fun h => hs (mem_of_isPrefOf h c hc)
    rw [if_neg h1, ih (fun h => hs (List.mem_cons_of_mem a h))]

theorem isPrefOf_append_cut {pat : List Char} {d : Char} (hd : d ∉ pat)
    (xs ys : List Char) : isPrefOf pat (xs ++ d :: ys) = isPrefOf pat xs := by
  induction pat generalizing xs with
  | nil => rw [isPrefOf_nil, isPrefOf_nil]
  | cons a p ih =>
    cases xs with
    | nil =>
      have had : (a == d) = false := by
        apply beq_eq_false_iff_ne.mpr
        intro h; exact hd (h ▸ List.mem_cons_self a p)
      simp only [List.nil_append, isPrefOf_cons, had, Bool.false_and]
      rfl
    | cons x xs' =>
      rw [List.cons_append, isPrefOf_cons, isPrefOf_cons,
        ih (fun h => hd (List.mem_cons_of_mem a h)) xs']

theorem countSub_append_cut {pat : List Char} {d : Char} (hd : d ∉ pat)
    (xs ys : List Char) :
    countSub pat (xs ++ d :: ys) = countSub pat xs + countSub pat (d :: ys) := by
  induction xs with
  | nil => simp [countSub_nil]
  | cons a t ih =>
    rw [List.cons_append, countSub_cons, countSub_cons, ih]
    rw [show a :: (t ++ d :: ys) = (a :: t) ++ d :: ys from rfl,
      isPrefOf_append_cut hd (a :: t) ys]
    omega

theorem countSub_sepHeaded_append {pat : List Char} (h1 : '?' ∉ pat) (h2 : '&' ∉ pat)
    {ys : List Char} (hy : SepHeaded ys) (xs : List Char) :
    countSub pat (xs ++ ys) = countSub pat xs + countSub pat ys := by
  rcases hy with rfl | ⟨r, rfl⟩ | ⟨r, rfl⟩
  · simp [countSub_nil]
  · exact countSub_append_cut h1 xs r
  · exact countSub_append_cut h2 xs r

theorem sepHeaded_append {xs ys : List Char} (hx : SepHeaded xs) (hy : SepHeaded ys) :
    SepHeaded (xs ++ ys) := by
  rcases hx with rfl | ⟨r, rfl⟩ | ⟨r, rfl⟩
  · simpa using hy
  · exact Or.inr (Or.inl ⟨r ++ ys, rfl⟩)
  · exact Or.inr (Or.inr ⟨r ++ ys, rfl⟩)

theorem isPrefOf_eq_iff {w u : List Char} (hw : '=' ∉ w) (hu : '=' ∉ u) (v : List Char) :
    isPrefOf (w ++ ['=']) (u ++ '=' :: v) = true ↔ u = w := by
  induction u generalizing w with
  | nil =>
    cases w with
    | nil => simp [isPrefOf, isPrefOf_nil]
    | cons b wt =>
      have hbe : (b == '=') = false := by
        apply beq_eq_false_iff_ne.mpr
        intro h; exact hw (h ▸ List.mem_cons_self b wt)
      simp [isPrefOf_cons, hbe]
  | cons a ut ih =>
    cases w with
    | nil =>
      have hae : ('=' == a) = false := by
        apply beq_eq_false_iff_ne.mpr
        intro h; exact hu (h ▸ List.mem_cons_self a ut)
      simp [isPrefOf_cons, hae]
    | cons b wt =>
      rw [List.cons_append, List.cons_append, isPrefOf_cons, Bool.and_eq_true,
        ih (fun h => hw (List.mem_cons_of_mem b h)) (fun h => hu (List.mem_cons_of_mem a h))]
      constructor
      · rintro ⟨h1, rfl⟩; rw [eq_of_beq h1]
      · rintro h
        injection h with h1 h2
        exact ⟨by rw [h1]; exact beq_self_eq_true b, h2⟩

theorem countSub_split {w : List Char} (hw0 : w ≠ []) (hw : '=' ∉ w)
    {u : List Char} (hu : '=' ∉ u) (v : List Char) :
    countSub (w ++ ['=']) (u ++ '=' :: v)
      = (if u.drop (u.length - w.length) = w then 1 else 0) + countSub (w ++ ['=']) v := by
  induction u with
  | nil =>
    rw [List.nil_append, countSub_cons]
    have h1 : ¬ (isPrefOf (w ++ ['=']) ('=' :: v) = true) := by
      have hiff := isPrefOf_eq_iff hw (show '=' ∉ ([] : List Char) by simp) v
      rw [List.nil_append] at hiff
      intro h; exact hw0 (hiff.mp h).symm
    rw [if_neg h1]
    have h2 : ¬ (List.drop (List.length ([] : List Char) - w.length) ([] : List Char) = w) := by
      simp only [List.drop_nil]
      intro h; exact hw0 h.symm
    rw [if_neg h2]
  | cons a ut ih =>
    have hut : '=' ∉ ut := fun h => hu (List.mem_cons_of_mem a h)
    rw [List.cons_append, countSub_cons, ih hut]
    have hiff := isPrefOf_eq_iff hw hu v
    have e1 : (if isPrefOf (w ++ ['=']) (a :: (ut ++ '=' :: v)) = true then 1 else 0)
        = (if a :: ut = w then 1 else 0) := by
      rw [show a :: (ut ++ '=' :: v) = (a :: ut) ++ '=' :: v from rfl]
      by_cases hm : a :: ut = w
      · rw [if_pos (hiff.mpr hm), if_pos hm]
      · rw [if_neg (fun h => hm (hiff.mp h)), if_neg hm]
    rw [e1]
    rcases Nat.lt_trichotomy w.length (ut.length + 1) with hlt | heq | hgt
    · -- w fits strictly inside a :: ut: a match at position 0 is impossible
      have hm : ¬ (a :: ut = w) := by
        intro h
        have := congrArg List.length h
        simp only [List.length_cons] at this; omega
      rw [if_neg hm]
      have hdrop : (a :: ut).length - w.length = (ut.length - w.length) + 1 := by
        simp only [List.length_cons]; omega
      rw [hdrop, List.drop_succ_cons]
      omega
    · -- the only possible match is the whole of a :: ut
      have hdrop : (a :: ut).length - w.length = 0 := by
        simp only [List.length_cons]; omega
      have hd2 : ut.length - w.length = 0 := by omega
      rw [hdrop, hd2, List.drop_zero, List.drop_zero]
      have hutw : ¬ (ut = w) := by
        intro h
        have := congrArg List.length h
        omega
      rw [if_neg hutw]
      by_cases hm : a :: ut = w
      · rw [if_pos hm]; omega
      · rw [if_neg hm]; omega
    · -- w is longer than a :: ut: no match anywhere
      have hm : ¬ (a :: ut = w) := by
        intro h
        have := congrArg List.length h
        simp only [List.length_cons] at this; omega
      rw [if_neg hm]
      have hdrop : (a :: ut).length - w.length = 0 := by
        simp only [List.length_cons]; omega
      have hd2 : ut.length - w.length = 0 := by omega
      rw [hdrop, hd2, List.drop_zero, List.drop_zero, if_neg hm]
      have hm2 : ¬ (ut = w) := by
        intro h
        have := congrArg List.length h
        omega
      rw [if_neg hm2]
      omega

/-! ### Characters produced by the escaping -/

theorem hexDigitChar_mem (n : Nat) : hexDigitChar n ∈ hexChars := by
  match n with
  | 0 | 1 | 2 | 3 | 4 | 5 | 6 | 7 | 8 | 9 | 10 | 11 | 12 | 13 | 14 => decide
  | (m + 15) => exact (by decide : 'F' ∈ hexChars)

theorem uriEscapeChar_chars {c d : Char} (hd : d ∈ uriEscapeChar c) :
    isUnreservedChar d = true ∨ 0x80 ≤ d.toNat ∨ d = '%' ∨ d ∈ hexChars := by
  unfold uriEscapeChar at hd
  split at hd
  · next h =>
    rcases List.mem_singleton.mp hd with rfl
    exact Or.inl h
  · split at hd
    · next h =>
      rcases List.mem_singleton.mp hd with rfl
      exact Or.inr (Or.inl h)
    · rcases List.mem_cons.mp hd with rfl | hd'
      · exact Or.inr (Or.inr (Or.inl rfl))
      · rcases List.mem_cons.mp hd' with rfl | hd''
        · exact Or.inr (Or.inr (Or.inr (hexDigitChar_mem _)))
        · rcases List.mem_singleton.mp hd'' with rfl
          exact Or.inr (Or.inr (Or.inr (hexDigitChar_mem _)))

theorem not_mem_uriEscapeList {d : Char} (h1 : isUnreservedChar d = false)
    (h2 : d.toNat < 0x80) (h3 : d ≠ '%') (h4 : d ∉ hexChars) :
    ∀ l, d ∉ uriEscapeList l := by
  intro l
  induction l with
  | nil => simp [uriEscapeList]
  | cons c t ih =>
    intro hmem
    rcases List.mem_append.mp hmem with hc | ht
    · rcases uriEscapeChar_chars hc with h | h | h | h
      · rw [h1] at h; cases h
      · omega
      · exact h3 h
      · exact h4 h
    · exact ih ht

theorem eq_not_mem_escList (l : List Char) : '=' ∉ uriEscapeList l :=
  not_mem_uriEscapeList (by decide) (by decide) (by decide) (by decide) l

theorem qmark_not_mem_escList (l : List Char) : '?' ∉ uriEscapeList l :=
  not_mem_uriEscapeList (by decide) (by decide) (by decide) (by decide) l

theorem eq_not_mem_escTail (l : List GDataGDEmailAddress) : '=' ∉ (escTail l).data := by
  induction l with
  | nil => simp [escTail]
  | cons a t ih =>
    intro hmem
    have hd : (escTail (a :: t)).data
        = ';' :: (uriEscapeList a.address.data ++ (escTail t).data) := rfl
    rw [hd] at hmem
    rcases List.mem_cons.mp hmem with h | h
    · cases h
    · rcases List.mem_append.mp h with h' | h'
      · exact eq_not_mem_escList _ h'
      · exact ih h'

theorem eq_not_mem_escBody (a : GDataGDEmailAddress) (l : List GDataGDEmailAddress) :
    '=' ∉ (uriEscape a.address ++ escTail l).data := by
  intro hmem
  rcases List.mem_append.mp hmem with h | h
  · exact eq_not_mem_escList _ h
  · exact eq_not_mem_escTail _ h

/-! ### Shape of the blocks -/

theorem sepHeaded_sep (b : Bool) (rest : List Char) : SepHeaded (sepChar b :: rest) := by
  cases b
  · exact Or.inr (Or.inl ⟨rest, rfl⟩)
  · exact Or.inr (Or.inr ⟨rest, rfl⟩)

theorem addressesParam_cons_data (nm : String) (a : GDataGDEmailAddress)
    (rest : List GDataGDEmailAddress) (b : Bool) :
    ((addressesParam nm (a :: rest) b).1).data
      = sepChar b :: (nm ++ uriEscape a.address ++ escTail rest).data := rfl

theorem sepHeaded_addressesParam (nm : String) (l : List GDataGDEmailAddress) (b : Bool) :
    SepHeaded ((addressesParam nm l b).1).data := by
  cases l with
  | nil => exact Or.inl rfl
  | cons a rest =>
    rw [addressesParam_cons_data]
    exact sepHeaded_sep b _

theorem titleParam_some_data (t : String) (e b : Bool) :
    ((titleParam (some t) e b).1).data
      = sepChar b :: ("title=" ++ uriEscape t ++
          (if e then "&title-exact=true" else "")).data := rfl

theorem sepHeaded_titleParam (t : Option String) (e b : Bool) :
    SepHeaded ((titleParam t e b).1).data := by
  cases t with
  | none => exact Or.inl rfl
  | some t =>
    rw [titleParam_some_data]
    exact sepHeaded_sep b _

theorem flagsParam_data (sd sf b : Bool) :
    (flagsParam sd sf b).data
      = sepChar b :: ((if sd then "showdeleted=true" else "showdeleted=false") ++
          (if sf then "&showfolders=true" else "&showfolders=false")).data := rfl

theorem sepHeaded_flagsParam (sd sf b : Bool) : SepHeaded (flagsParam sd sf b).data := by
  rw [flagsParam_data]
  exact sepHeaded_sep b _

theorem sepHeaded_docParams (priv : GDataDocumentsQueryPrivate) (b : Bool) :
    SepHeaded (docParams priv b).data := by
  have hd : (docParams priv b).data
      = ((wPart priv b).1).data ++ (((rPart priv b).1).data ++
          (((tPart priv b).1).data ++ (fPart priv b).data)) := by
    simp [docParams, sdata_append, List.append_assoc]
  rw [hd]
  exact sepHeaded_append (sepHeaded_addressesParam _ _ _)
    (sepHeaded_append (sepHeaded_addressesParam _ _ _)
      (sepHeaded_append (sepHeaded_titleParam _ _ _) (sepHeaded_flagsParam _ _ _)))

/-! ### Occurrence counts inside the blocks -/

theorem cnt_addr_master (w : List Char) (hw0 : w ≠ []) (hw : '=' ∉ w)
    (nmw : List Char) (hne : '=' ∉ nmw) (l : List GDataGDEmailAddress) (b : Bool) :
    countSub (w ++ ['=']) ((addressesParam ⟨nmw ++ ['=']⟩ l b).1).data
      = if l.isEmpty then 0
        else if (sepChar b :: nmw).drop ((nmw.length + 1) - w.length) = w then 1 else 0 := by
  cases l with
  | nil => simp [addressesParam, countSub_nil]
  | cons a rest =>
    have hdata : ((addressesParam ⟨nmw ++ ['=']⟩ (a :: rest) b).1).data
        = (sepChar b :: nmw) ++ '=' :: (uriEscapeList a.address.data ++ (escTail rest).data) := by
      rw [addressesParam_cons_data]
      simp [sdata_append, uriEscape, List.append_assoc]
    rw [hdata]
    have hu : '=' ∉ sepChar b :: nmw := by
      intro hmem
      rcases List.mem_cons.mp hmem with h | h
      · cases b <;> simp [sepChar] at h
      · exact hne h
    rw [countSub_split hw0 hw hu]
    have hz : countSub (w ++ ['=']) (uriEscapeList a.address.data ++ (escTail rest).data) = 0 := by
      apply countSub_eq_zero '=' (List.mem_append.mpr (Or.inr (by simp)))
      intro hmem
      rcases List.mem_append.mp hmem with h | h
      · exact eq_not_mem_escList _ h
      · exact eq_not_mem_escTail _ h
    rw [hz]
    simp [List.length_cons]

theorem cnt_title_master {w : List Char} (hw0 : w ≠ []) (hw : '=' ∉ w)
    (hlen : w.length ≤ 12) (t : Option String) (e b : Bool) :
    countSub (w ++ ['=']) ((titleParam t e b).1).data
      = if t.isNone then 0
        else
          (if (sepChar b :: ("title" : String).data).drop (6 - w.length) = w then 1 else 0)
          + (if e then
               (if (("&title-exact" : String).data).drop (12 - w.length) = w then 1 else 0)
               + countSub (w ++ ['=']) ("true" : String).data
             else 0) := by
  cases t with
  | none => simp [titleParam, countSub_nil]
  | some ttl =>
    have hdata : ((titleParam (some ttl) e b).1).data
        = (sepChar b :: ("title" : String).data) ++ '=' ::
            (uriEscapeList ttl.data ++ (if e then "&title-exact=true" else "" : String).data) := by
      rw [titleParam_some_data]
      simp [sdata_append, uriEscape, List.append_assoc]
    rw [hdata]
    have hu : '=' ∉ sepChar b :: ("title" : String).data := by
      intro hmem
      rcases List.mem_cons.mp hmem with h | h
      · cases b <;> simp [sepChar] at h
      · revert h; decide
    rw [countSub_split hw0 hw hu]
    have hulen : (sepChar b :: ("title" : String).data).length = 6 := by
      cases b <;> decide
    rw [hulen]
    cases e with
    | false =>
      rw [show (if (false : Bool) then ("&title-exact=true" : String) else "") = "" from rfl]
      have hz : countSub (w ++ ['='])
          (uriEscapeList ttl.data ++ ("" : String).data) = 0 := by
        apply countSub_eq_zero '=' (List.mem_append.mpr (Or.inr (by simp)))
        intro hmem
        rcases List.mem_append.mp hmem with h | h
        · exact eq_not_mem_escList _ h
        · cases h
      rw [hz]
      rfl
    | true =>
      rw [show (if (true : Bool) then ("&title-exact=true" : String) else "")
          = "&title-exact=true" from rfl]
      have hsplit : uriEscapeList ttl.data ++ ("&title-exact=true" : String).data
          = (uriEscapeList ttl.data ++ ("&title-exact" : String).data) ++
              '=' :: ("true" : String).data := by
        rw [List.append_assoc]
        rfl
      rw [hsplit]
      have hu2 : '=' ∉ uriEscapeList ttl.data ++ ("&title-exact" : String).data := by
        intro hmem
        rcases List.mem_append.mp hmem with h | h
        · exact eq_not_mem_escList _ h
        · revert h; decide
      rw [countSub_split hw0 hw hu2]
      have hcond : (uriEscapeList ttl.data ++ ("&title-exact" : String).data).drop
            ((uriEscapeList ttl.data ++ ("&title-exact" : String).data).length - w.length)
          = ("&title-exact" : String).data.drop (12 - w.length) := by
        have h12 : w.length ≤ (("&title-exact" : String).data).length := by
          have : (("&title-exact" : String).data).length = 12 := by decide
          omega
        rw [drop_sub_append _ h12,
          show (("&title-exact" : String).data).length = 12 from by decide]
      rw [hcond]
      rfl

theorem cnt_w_writer (l : List GDataGDEmailAddress) (b : Bool) :
    countSub wpat ((addressesParam "writer=" l b).1).data = if l.isEmpty then 0 else 1 := by
  have h := cnt_addr_master ("writer" : String).data (by decide) (by decide)
    ("writer" : String).data (by decide) l b
  rw [show (⟨("writer" : String).data ++ ['=']⟩ : String) = "writer=" from rfl] at h
  rw [show wpat = ("writer" : String).data ++ ['='] from rfl, h]
  have hcond : (sepChar b :: ("writer" : String).data).drop
      ((("writer" : String).data.length + 1) - ("writer" : String).data.length)
      = ("writer" : String).data := by
    cases b <;> decide
  rw [if_pos hcond]

theorem cnt_w_reader (l : List GDataGDEmailAddress) (b : Bool) :
    countSub wpat ((addressesParam "reader=" l b).1).data = 0 := by
  have h := cnt_addr_master ("writer" : String).data (by decide) (by decide)
    ("reader" : String).data (by decide) l b
  rw [show (⟨("reader" : String).data ++ ['=']⟩ : String) = "reader=" from rfl] at h
  rw [show wpat = ("writer" : String).data ++ ['='] from rfl, h]
  have hcond : ¬ ((sepChar b :: ("reader" : String).data).drop
      ((("reader" : String).data.length + 1) - ("writer" : String).data.length)
      = ("writer" : String).data) := by
    cases b <;> decide
  rw [if_neg hcond]
  cases l <;> rfl

theorem cnt_r_writer (l : List GDataGDEmailAddress) (b : Bool) :
    countSub rpat ((addressesParam "writer=" l b).1).data = 0 := by
  have h := cnt_addr_master ("reader" : String).data (by decide) (by decide)
    ("writer" : String).data (by decide) l b
  rw [show (⟨("writer" : String).data ++ ['=']⟩ : String) = "writer=" from rfl] at h
  rw [show rpat = ("reader" : String).data ++ ['='] from rfl, h]
  have hcond : ¬ ((sepChar b :: ("writer" : String).data).drop
      ((("writer" : String).data.length + 1) - ("reader" : String).data.length)
      = ("reader" : String).data) := by
    cases b <;> decide
  rw [if_neg hcond]
  cases l <;> rfl

theorem cnt_r_reader (l : List GDataGDEmailAddress) (b : Bool) :
    countSub rpat ((addressesParam "reader=" l b).1).data = if l.isEmpty then 0 else 1 := by
  have h := cnt_addr_master ("reader" : String).data (by decide) (by decide)
    ("reader" : String).data (by decide) l b
  rw [show (⟨("reader" : String).data ++ ['=']⟩ : String) = "reader=" from rfl] at h
  rw [show rpat = ("reader" : String).data ++ ['='] from rfl, h]
  have hcond : (sepChar b :: ("reader" : String).data).drop
      ((("reader" : String).data.length + 1) - ("reader" : String).data.length)
      = ("reader" : String).data := by
    cases b <;> decide
  rw [if_pos hcond]

theorem cnt_t_writer (l : List GDataGDEmailAddress) (b : Bool) :
    countSub tpat ((addressesParam "writer=" l b).1).data = 0 := by
  have h := cnt_addr_master ("title" : String).data (by decide) (by decide)
    ("writer" : String).data (by decide) l b
  rw [show (⟨("writer" : String).data ++ ['=']⟩ : String) = "writer=" from rfl] at h
  rw [show tpat = ("title" : String).data ++ ['='] from rfl, h]
  have hcond : ¬ ((sepChar b :: ("writer" : String).data).drop
      ((("writer" : String).data.length + 1) - ("title" : String).data.length)
      = ("title" : String).data) := by
    cases b <;> decide
  rw [if_neg hcond]
  cases l <;> rfl

theorem cnt_t_reader (l : List GDataGDEmailAddress) (b : Bool) :
    countSub tpat ((addressesParam "reader=" l b).1).data = 0 := by
  have h := cnt_addr_master ("title" : String).data (by decide) (by decide)
    ("reader" : String).data (by decide) l b
  rw [show (⟨("reader" : String).data ++ ['=']⟩ : String) = "reader=" from rfl] at h
  rw [show tpat = ("title" : String).data ++ ['='] from rfl, h]
  have hcond : ¬ ((sepChar b :: ("reader" : String).data).drop
      ((("reader" : String).data.length + 1) - ("title" : String).data.length)
      = ("title" : String).data) := by
    cases b <;> decide
  rw [if_neg hcond]
  cases l <;> rfl

theorem cnt_te_writer (l : List GDataGDEmailAddress) (b : Bool) :
    countSub tepat ((addressesParam "writer=" l b).1).data = 0 := by
  have h := cnt_addr_master ("title-exact" : String).data (by decide) (by decide)
    ("writer" : String).data (by decide) l b
  rw [show (⟨("writer" : String).data ++ ['=']⟩ : String) = "writer=" from rfl] at h
  rw [show tepat = ("title-exact" : String).data ++ ['='] from rfl, h]
  have hcond : ¬ ((sepChar b :: ("writer" : String).data).drop
      ((("writer" : String).data.length + 1) - ("title-exact" : String).data.length)
      = ("title-exact" : String).data) := by
    cases b <;> decide
  rw [if_neg hcond]
  cases l <;> rfl

theorem cnt_te_reader (l : List GDataGDEmailAddress) (b : Bool) :
    countSub tepat ((addressesParam "reader=" l b).1).data = 0 := by
  have h := cnt_addr_master ("title-exact" : String).data (by decide) (by decide)
    ("reader" : String).data (by decide) l b
  rw [show (⟨("reader" : String).data ++ ['=']⟩ : String) = "reader=" from rfl] at h
  rw [show tepat = ("title-exact" : String).data ++ ['='] from rfl, h]
  have hcond : ¬ ((sepChar b :: ("reader" : String).data).drop
      ((("reader" : String).data.length + 1) - ("title-exact" : String).data.length)
      = ("title-exact" : String).data) := by
    cases b <;> decide
  rw [if_neg hcond]
  cases l <;> rfl

theorem cnt_w_title (t : Option String) (e b : Bool) :
    countSub wpat ((titleParam t e b).1).data = 0 := by
  rw [show wpat = ("writer" : String).data ++ ['='] from rfl,
    cnt_title_master (by decide) (by decide) (by decide) t e b]
  cases t with
  | none => rfl
  | some ttl =>
    rw [if_neg (show ¬((some ttl).isNone = true) from by simp)]
    cases e <;> cases b <;> decide

theorem cnt_r_title (t : Option String) (e b : Bool) :
    countSub rpat ((titleParam t e b).1).data = 0 := by
  rw [show rpat = ("reader" : String).data ++ ['='] from rfl,
    cnt_title_master (by decide) (by decide) (by decide) t e b]
  cases t with
  | none => rfl
  | some ttl =>
    rw [if_neg (show ¬((some ttl).isNone = true) from by simp)]
    cases e <;> cases b <;> decide

theorem cnt_w_flags (sd sf b : Bool) : countSub wpat (flagsParam sd sf b).data = 0 := by
  cases sd <;> cases sf <;> cases b <;> decide

theorem cnt_r_flags (sd sf b : Bool) : countSub rpat (flagsParam sd sf b).data = 0 := by
  cases sd <;> cases sf <;> cases b <;> decide

theorem cnt_t_flags (sd sf b : Bool) : countSub tpat (flagsParam sd sf b).data = 0 := by
  cases sd <;> cases sf <;> cases b <;> decide

theorem cnt_te_flags (sd sf b : Bool) : countSub tepat (flagsParam sd sf b).data = 0 := by
  cases sd <;> cases sf <;> cases b <;> decide

/-! ### Occurrence counts across the whole composed output -/

theorem sepHeaded_wPart (priv : GDataDocumentsQueryPrivate) (b : Bool) :
    SepHeaded ((wPart priv b).1).data :=
  sepHeaded_addressesParam _ _ _

theorem sepHeaded_rPart (priv : GDataDocumentsQueryPrivate) (b : Bool) :
    SepHeaded ((rPart priv b).1).data :=
  sepHeaded_addressesParam _ _ _

theorem sepHeaded_tPart (priv : GDataDocumentsQueryPrivate) (b : Bool) :
    SepHeaded ((tPart priv b).1).data :=
  sepHeaded_titleParam _ _ _

theorem sepHeaded_fPart (priv : GDataDocumentsQueryPrivate) (b : Bool) :
    SepHeaded (fPart priv b).data :=
  sepHeaded_flagsParam _ _ _

theorem countSub_docParams {pat : List Char} (h1 : '?' ∉ pat) (h2 : '&' ∉ pat)
    (priv : GDataDocumentsQueryPrivate) (b : Bool) :
    countSub pat (docParams priv b).data
      = countSub pat ((wPart priv b).1).data + countSub pat ((rPart priv b).1).data
        + countSub pat ((tPart priv b).1).data + countSub pat (fPart priv b).data := by
  have hd : (docParams priv b).data
      = ((wPart priv b).1).data ++ (((rPart priv b).1).data ++
          (((tPart priv b).1).data ++ (fPart priv b).data)) := by
    simp [docParams, sdata_append, List.append_assoc]
  rw [hd,
    countSub_sepHeaded_append h1 h2 (sepHeaded_append (sepHeaded_rPart priv b)
      (sepHeaded_append (sepHeaded_tPart priv b) (sepHeaded_fPart priv b))),
    countSub_sepHeaded_append h1 h2 (sepHeaded_append (sepHeaded_tPart priv b)
      (sepHeaded_fPart priv b)),
    countSub_sepHeaded_append h1 h2 (sepHeaded_fPart priv b)]
  omega

theorem countSub_out {pat : List Char} (h1 : '?' ∉ pat) (h2 : '&' ∉ pat)
    (priv : GDataDocumentsQueryPrivate) (bs : String → Bool → String × Bool)
    (s : String) (b : Bool) :
    countSub pat ((get_query_uri priv none bs s b).1).data
      = countSub pat ((baseOut priv bs s b).1).data
        + countSub pat ((wPart priv (baseOut priv bs s b).2).1).data
        + countSub pat ((rPart priv (baseOut priv bs s b).2).1).data
        + countSub pat ((tPart priv (baseOut priv bs s b).2).1).data
        + countSub pat (fPart priv (baseOut priv bs s b).2).data := by
  have e : ((get_query_uri priv none bs s b).1).data
      = ((baseOut priv bs s b).1).data ++ (docParams priv (baseOut priv bs s b).2).data := rfl
  rw [e, countSub_sepHeaded_append h1 h2 (sepHeaded_docParams _ _),
    countSub_docParams h1 h2]
  omega

theorem cnt_w_wPart (priv : GDataDocumentsQueryPrivate) (b : Bool) :
    countSub wpat ((wPart priv b).1).data
      = if priv.collaborator_addresses.isEmpty then 0 else 1 :=
  cnt_w_writer _ _

theorem cnt_w_rPart (priv : GDataDocumentsQueryPrivate) (b : Bool) :
    countSub wpat ((rPart priv b).1).data = 0 :=
  cnt_w_reader _ _

theorem cnt_w_tPart (priv : GDataDocumentsQueryPrivate) (b : Bool) :
    countSub wpat ((tPart priv b).1).data = 0 :=
  cnt_w_title _ _ _

theorem cnt_w_fPart (priv : GDataDocumentsQueryPrivate) (b : Bool) :
    countSub wpat (fPart priv b).data = 0 :=
  cnt_w_flags _ _ _

theorem cnt_r_wPart (priv : GDataDocumentsQueryPrivate) (b : Bool) :
    countSub rpat ((wPart priv b).1).data = 0 :=
  cnt_r_writer _ _

theorem cnt_r_rPart (priv : GDataDocumentsQueryPrivate) (b : Bool) :
    countSub rpat ((rPart priv b).1).data
      = if priv.reader_addresses.isEmpty then 0 else 1 :=
  cnt_r_reader _ _

theorem cnt_r_tPart (priv : GDataDocumentsQueryPrivate) (b : Bool) :
    countSub rpat ((tPart priv b).1).data = 0 :=
  cnt_r_title _ _ _

theorem cnt_r_fPart (priv : GDataDocumentsQueryPrivate) (b : Bool) :
    countSub rpat (fPart priv b).data = 0 :=
  cnt_r_flags _ _ _

theorem cnt_t_wPart (priv : GDataDocumentsQueryPrivate) (b : Bool) :
    countSub tpat ((wPart priv b).1).data = 0 :=
  cnt_t_writer _ _

theorem cnt_t_rPart (priv : GDataDocumentsQueryPrivate) (b : Bool) :
    countSub tpat ((rPart priv b).1).data = 0 :=
  cnt_t_reader _ _

theorem cnt_t_fPart (priv : GDataDocumentsQueryPrivate) (b : Bool) :
    countSub tpat (fPart priv b).data = 0 :=
  cnt_t_flags _ _ _

theorem cnt_te_wPart (priv : GDataDocumentsQueryPrivate) (b : Bool) :
    countSub tepat ((wPart priv b).1).data = 0 :=
  cnt_te_writer _ _

theorem cnt_te_rPart (priv : GDataDocumentsQueryPrivate) (b : Bool) :
    countSub tepat ((rPart priv b).1).data = 0 :=
  cnt_te_reader _ _

theorem cnt_te_fPart (priv : GDataDocumentsQueryPrivate) (b : Bool) :
    countSub tepat (fPart priv b).data = 0 :=
  cnt_te_flags _ _ _

/-! ### The claims -/

/-- Claim C1: when `entry_id` is present, `get_query_uri` neither extends the
path with a folder segment (even if `folder_id` is set) nor appends any of the
document-specific parameters after chaining up to the base composition step —
the result is exactly the base step applied to the unmodified buffer and flag,
so no `writer=`, `reader=`, `title=`, `showdeleted=` or `showfolders=`
parameter is contributed by this component. -/
theorem spec_c1 (priv : GDataDocumentsQueryPrivate) (e : String)
    (bs : String → Bool → String × Bool) (s : String) (b : Bool) :
    get_query_uri priv (some e) bs s b = bs s b := rfl

/-- Claim C9: URI composition is a pure, deterministic function of the
builder's field snapshot and the base-query input: the state-passing form
returns the builder unchanged, and composing a second time from the builder
state left by the first composition yields an identical output string. -/
theorem spec_c9 (priv : GDataDocumentsQueryPrivate) (e : Option String)
    (bs : String → Bool → String × Bool) (s : String) (b : Bool) :
    (get_query_uri_st priv e bs s b).2 = priv ∧
    (get_query_uri_st ((get_query_uri_st priv e bs s b).2) e bs s b).1
      = (get_query_uri_st priv e bs s b).1 :=
  ⟨rfl, rfl⟩

/-- Claim C10: setting the title through the generic GObject property
interface always forces the stored `exact_title` to `true` (it delegates to
`gdata_documents_query_set_title` with `TRUE` hard-coded), for any new title
value, whereas the direct `set_title` call stores whatever `exact_title`
value the caller chooses. -/
theorem spec_c10 (q : GDataDocumentsQueryPrivate) (v : Option String) :
    (gdata_documents_query_set_property q .prop_title (.string v)).exact_title = true ∧
    gdata_documents_query_set_property q .prop_title (.string v)
      = gdata_documents_query_set_title q v true ∧
    (∀ e : Bool, (gdata_documents_query_set_title q v e).exact_title = e) :=
  ⟨rfl, rfl, fun _ => rfl⟩

/-- Claim C7, counterexample: clearing the title is done through
`gdata_documents_query_set_title (q, NULL, exact)`, which always assigns
`exact_title` as well; on a builder whose stored `exact_title` is `true`,
clearing the title with `exact_title = FALSE` changes the stored flag, so the
flag is not preserved across a clear. -/
theorem spec_c7_cex :
    (gdata_documents_query_set_title defaultPriv (some "a") true).exact_title = true ∧
    (gdata_documents_query_set_title
        (gdata_documents_query_set_title defaultPriv (some "a") true) none false).exact_title
      = false :=
  ⟨rfl, rfl⟩

/-- Claim C7, amended: `exact_title` is stored in its own field, but
`set_title` assigns both fields atomically: after `set_title (q, none, e)` the
stored `exact_title` equals the caller-supplied `e` — it is preserved across a
clear only when the caller passes the previously stored value back in. -/
theorem spec_c7_amended (q : GDataDocumentsQueryPrivate) (v : Option String) (e : Bool) :
    (gdata_documents_query_set_title q v e).exact_title = e ∧
    (gdata_documents_query_set_title q none q.exact_title).exact_title = q.exact_title :=
  ⟨rfl, rfl⟩

/-- Claim C8: `add_reader` and `add_collaborator` reject an absent or empty
address with `invalidArgument`, leaving every field of the query unchanged;
for a non-empty address they append exactly one newly constructed principal —
relation type fixed to `"reader"` resp. `"collaborator"`, no display name,
not primary — to the end of the corresponding list, leaving the other fields
and existing list contents and order intact. -/
theorem spec_c8 (q : GDataDocumentsQueryPrivate) :
    gdata_documents_query_add_reader q none = (q, some .invalidArgument) ∧
    gdata_documents_query_add_reader q (some "") = (q, some .invalidArgument) ∧
    gdata_documents_query_add_collaborator q none = (q, some .invalidArgument) ∧
    gdata_documents_query_add_collaborator q (some "") = (q, some .invalidArgument) ∧
    (∀ a : String, a ≠ "" →
      gdata_documents_query_add_reader q (some a)
        = ({ q with reader_addresses := q.reader_addresses ++ [⟨a, "reader", none, false⟩] },
            none) ∧
      gdata_documents_query_add_collaborator q (some a)
        = ({ q with collaborator_addresses :=
              q.collaborator_addresses ++ [⟨a, "collaborator", none, false⟩] }, none)) := by
  refine ⟨rfl, rfl, rfl, rfl, fun a ha => ⟨?_, ?_⟩⟩
  · simp [gdata_documents_query_add_reader, gdata_gd_email_address_new, ha]
  · simp [gdata_documents_query_add_collaborator, gdata_gd_email_address_new, ha]

/-- Witness for C8 at a concrete non-empty address. -/
theorem spec_c8_witness :
    gdata_documents_query_add_reader defaultPriv (some "a@x.com")
      = ({ defaultPriv with reader_addresses :=
            defaultPriv.reader_addresses ++ [⟨"a@x.com", "reader", none, false⟩] }, none) ∧
    gdata_documents_query_add_collaborator defaultPriv (some "a@x.com")
      = ({ defaultPriv with collaborator_addresses :=
            defaultPriv.collaborator_addresses ++
              [⟨"a@x.com", "collaborator", none, false⟩] }, none) :=
  (spec_c8 defaultPriv).2.2.2.2 "a@x.com" (by decide)

/-- Claim C6: the unset / empty / non-empty tri-state of `folder_id` and
`title` is preserved: the setters store exactly the given value (`g_strdup`
maps `NULL` to `NULL` and copies an empty string to a distinct empty string),
the accessors return it, and composition treats an empty string as set (the
folder path segment and the `title=` parameter are emitted) while `none`
skips the step. -/
theorem spec_c6 (q : GDataDocumentsQueryPrivate) (e b : Bool) (s : String) :
    (∀ v, gdata_documents_query_get_folder_id (gdata_documents_query_set_folder_id q v) = v) ∧
    (∀ v, gdata_documents_query_get_title (gdata_documents_query_set_title q v e) = v) ∧
    gdata_documents_query_get_folder_id
      (gdata_documents_query_set_folder_id q (some "")) = some "" ∧
    gdata_documents_query_get_folder_id
      (gdata_documents_query_set_folder_id q none) = none ∧
    gdata_documents_query_get_title
      (gdata_documents_query_set_title q (some "") e) = some "" ∧
    gdata_documents_query_get_title
      (gdata_documents_query_set_title q none e) = none ∧
    withFolderPath none (some "") s = s ++ "/folder%3A" ∧
    withFolderPath none none s = s ∧
    titleParam (some "") e b
      = (appendSep b ++ "title=" ++ uriEscape "" ++
          (if e then "&title-exact=true" else ""), true) ∧
    titleParam none e b = ("", b) := by
  refine ⟨fun v => rfl, fun v => rfl, rfl, rfl, rfl, rfl, ?_, rfl, rfl, rfl⟩
  show s ++ "/folder%3A" ++ uriEscape "" = s ++ "/folder%3A"
  apply str_ext
  simp [sdata_append, uriEscape, uriEscapeList]

/-- Claim C2, counterexample: with `entry_id` present the short-circuit
suppresses the visibility flags entirely — on a concrete builder the composed
output is the untouched base output and contains no `showdeleted=` and no
`showfolders=` parameter, refuting "present in every output regardless of any
other field configuration". -/
theorem spec_c2_cex :
    (get_query_uri defaultPriv (some "entry1") bs0 "http://example.com/feed" false).1
      = "http://example.com/feed" ∧
    countSub ("showdeleted=" : String).data
      ((get_query_uri defaultPriv (some "entry1") bs0 "http://example.com/feed" false).1).data
      = 0 ∧
    countSub ("showfolders=" : String).data
      ((get_query_uri defaultPriv (some "entry1") bs0 "http://example.com/feed" false).1).data
      = 0 :=
  ⟨rfl, by decide, by decide⟩

/-- Claim C2, amended (restricted to `entry_id` absent): the composed output
ends with a `showdeleted` parameter whose literal `true`/`false` value matches
the stored boolean, preceded by the started-flag separator, followed by a
`showfolders` parameter joined with `&`, regardless of any other field
configuration. -/
theorem spec_c2_amended (priv : GDataDocumentsQueryPrivate)
    (bs : String → Bool → String × Bool) (s : String) (b : Bool) :
    ∃ u b', (get_query_uri priv none bs s b).1
      = u ++ appendSep b'
          ++ (if priv.show_deleted then "showdeleted=true" else "showdeleted=false")
          ++ (if priv.show_folders then "&showfolders=true" else "&showfolders=false") := by
  refine ⟨(baseOut priv bs s b).1 ++ (wPart priv (baseOut priv bs s b).2).1
      ++ (rPart priv (baseOut priv bs s b).2).1 ++ (tPart priv (baseOut priv bs s b).2).1,
    (tPart priv (baseOut priv bs s b).2).2, ?_⟩
  show (baseOut priv bs s b).1 ++ docParams priv (baseOut priv bs s b).2 = _
  apply str_ext
  simp [docParams, fPart, flagsParam, sdata_append, List.append_assoc]

/-- Claim C3: for a builder with `entry_id` absent, if `folder_id` is set the
literal segment `/folder%3A` (the `%3A` appended verbatim, not re-escaped)
followed by the percent-escaped folder id is appended to the feed URI before
the chain-up — hence, for an append-only base step and a `?`-free feed URI,
before any `?` of the output; if `folder_id` is unset the step is skipped and
the base step receives the unmodified buffer. -/
theorem spec_c3 (priv : GDataDocumentsQueryPrivate)
    (bs : String → Bool → String × Bool) (s : String) (b : Bool)
    (hb : ∀ u c, ∃ t, (bs u c).1 = u ++ t)
    (hs : '?' ∉ s.data) :
    (∀ fid, priv.folder_id = some fid →
      ∃ rest, (get_query_uri priv none bs s b).1
          = s ++ "/folder%3A" ++ uriEscape fid ++ rest
        ∧ '?' ∉ (s ++ "/folder%3A" ++ uriEscape fid).data) ∧
    (priv.folder_id = none →
      (get_query_uri priv none bs s b).1
        = (bs s b).1 ++ docParams priv (bs s b).2) := by
  constructor
  · intro fid hf
    have hwf : withFolderPath none priv.folder_id s
        = s ++ "/folder%3A" ++ uriEscape fid := by
      rw [hf]
      rfl
    have e1 : baseOut priv bs s b = bs (s ++ "/folder%3A" ++ uriEscape fid) b := by
      unfold baseOut
      rw [hwf]
    obtain ⟨t, ht⟩ := hb (s ++ "/folder%3A" ++ uriEscape fid) b
    refine ⟨t ++ docParams priv (bs (s ++ "/folder%3A" ++ uriEscape fid) b).2, ?_, ?_⟩
    · show (baseOut priv bs s b).1 ++ docParams priv (baseOut priv bs s b).2 = _
      rw [e1, ht]
      apply str_ext
      simp [sdata_append, List.append_assoc]
    · intro hmem
      rw [sdata_append, sdata_append] at hmem
      rcases List.mem_append.mp hmem with h | h
      · rcases List.mem_append.mp h with h' | h'
        · exact hs h'
        · revert h'; decide
      · exact qmark_not_mem_escList _ h
  · intro hf
    have e1 : baseOut priv bs s b = bs s b := by
      unfold baseOut
      rw [hf]
      rfl
    show (baseOut priv bs s b).1 ++ docParams priv (baseOut priv bs s b).2 = _
    rw [e1]

/-- Witness for C3: a builder with folder id `"abc"` produces the segment
`/folder%3Aabc` right after the feed URI and before any `?`, and a builder
with no folder id hands the feed URI to the base step untouched. -/
theorem spec_c3_witness :
    (∃ rest, (get_query_uri { defaultPriv with folder_id := some "abc" }
          none bs0 "http://F" false).1
        = "http://F" ++ "/folder%3A" ++ uriEscape "abc" ++ rest
      ∧ '?' ∉ ("http://F" ++ "/folder%3A" ++ uriEscape "abc").data) ∧
    (get_query_uri defaultPriv none bs0 "http://F" false).1
      = (bs0 "http://F" false).1 ++ docParams defaultPriv (bs0 "http://F" false).2 := by
  constructor
  · exact (spec_c3 { defaultPriv with folder_id := some "abc" } bs0 "http://F" false
      (fun u c => ⟨"", (sappend_nil u).symm⟩) (by decide)).1 "abc" rfl
  · exact (spec_c3 defaultPriv bs0 "http://F" false
      (fun u c => ⟨"", (sappend_nil u).symm⟩) (by decide)).2 rfl

/-- Claim C4: for a builder with `entry_id` absent, given that the chained-up
base output contains no `writer=` and no `reader=` occurrence: a non-empty
collaborator list produces exactly one `writer=` parameter, preceded by `?` or
`&` according to the started flag (which is then marked, so the next block
separates with `&`), whose value is the individually percent-escaped addresses
semicolon-joined in insertion order with no separator before the first, with
the reader list rendered identically under `reader=` immediately after; a
non-empty reader list likewise produces exactly one `reader=` parameter; empty
lists emit no `writer=` resp. `reader=` occurrence at all. -/
theorem spec_c4 (priv : GDataDocumentsQueryPrivate)
    (bs : String → Bool → String × Bool) (s : String) (b : Bool)
    (hw : countSub wpat ((baseOut priv bs s b).1).data = 0)
    (hr : countSub rpat ((baseOut priv bs s b).1).data = 0) :
    (∀ a as, priv.collaborator_addresses = a :: as →
      countSub wpat ((get_query_uri priv none bs s b).1).data = 1 ∧
      ∃ rest, (get_query_uri priv none bs s b).1
        = (baseOut priv bs s b).1 ++ appendSep (baseOut priv bs s b).2 ++ "writer="
            ++ uriEscape a.address ++ escTail as
            ++ (addressesParam "reader=" priv.reader_addresses true).1 ++ rest) ∧
    (priv.collaborator_addresses = [] →
      countSub wpat ((get_query_uri priv none bs s b).1).data = 0) ∧
    (∀ a as, priv.reader_addresses = a :: as →
      countSub rpat ((get_query_uri priv none bs s b).1).data = 1 ∧
      ∃ u rest, (get_query_uri priv none bs s b).1
        = u ++ appendSep (wPart priv (baseOut priv bs s b).2).2 ++ "reader="
            ++ uriEscape a.address ++ escTail as ++ rest) ∧
    (priv.reader_addresses = [] →
      countSub rpat ((get_query_uri priv none bs s b).1).data = 0) := by
  refine ⟨fun a as hc => ⟨?_, ?_⟩, fun hc => ?_, fun a as hc => ⟨?_, ?_⟩, fun hc => ?_⟩
  · rw [countSub_out (by decide) (by decide), hw, cnt_w_wPart, cnt_w_rPart,
      cnt_w_tPart, cnt_w_fPart, hc]
    simp
  · refine ⟨(tPart priv (baseOut priv bs s b).2).1 ++ fPart priv (baseOut priv bs s b).2, ?_⟩
    show (baseOut priv bs s b).1 ++ docParams priv (baseOut priv bs s b).2 = _
    apply str_ext
    simp [docParams, wPart, rPart, addressesParam, hc, sdata_append, List.append_assoc]
  · rw [countSub_out (by decide) (by decide), hw, cnt_w_wPart, cnt_w_rPart,
      cnt_w_tPart, cnt_w_fPart, hc]
    simp
  · rw [countSub_out (by decide) (by decide), hr, cnt_r_wPart, cnt_r_rPart,
      cnt_r_tPart, cnt_r_fPart, hc]
    simp
  · refine ⟨(baseOut priv bs s b).1 ++ (wPart priv (baseOut priv bs s b).2).1,
      (tPart priv (baseOut priv bs s b).2).1 ++ fPart priv (baseOut priv bs s b).2, ?_⟩
    show (baseOut priv bs s b).1 ++ docParams priv (baseOut priv bs s b).2 = _
    apply str_ext
    simp [docParams, rPart, addressesParam, hc, sdata_append, List.append_assoc]
  · rw [countSub_out (by decide) (by decide), hr, cnt_r_wPart, cnt_r_rPart,
      cnt_r_tPart, cnt_r_fPart, hc]
    simp

/-- Witness for C4 on a concrete builder with one collaborator and one
reader, over the identity base step and a marker-free feed URI. -/
theorem spec_c4_witness :
    (countSub wpat ((get_query_uri privW none bs0 "http://F" false).1).data = 1 ∧
      ∃ rest, (get_query_uri privW none bs0 "http://F" false).1
        = (baseOut privW bs0 "http://F" false).1
            ++ appendSep (baseOut privW bs0 "http://F" false).2 ++ "writer="
            ++ uriEscape collabA.address ++ escTail []
            ++ (addressesParam "reader=" privW.reader_addresses true).1 ++ rest) ∧
    (countSub rpat ((get_query_uri privW none bs0 "http://F" false).1).data = 1 ∧
      ∃ u rest, (get_query_uri privW none bs0 "http://F" false).1
        = u ++ appendSep (wPart privW (baseOut privW bs0 "http://F" false).2).2 ++ "reader="
            ++ uriEscape readerB.address ++ escTail [] ++ rest) := by
  have h := spec_c4 privW bs0 "http://F" false (by decide) (by decide)
  exact ⟨h.1 collabA [] rfl, h.2.2.1 readerB [] rfl⟩

/-- Claim C5: for a builder with `entry_id` absent whose title is set
(including to the empty string), the output contains `title=` followed by the
percent-escaped title, and when `exact_title` is set the literal suffix
`&title-exact=true` follows immediately, joined with `&` independent of the
started flag; when the title is unset — and the base output is free of these
markers — neither a `title=` nor a `title-exact=` parameter occurs anywhere in
the output, even when `exact_title` is set. -/
theorem spec_c5 (priv : GDataDocumentsQueryPrivate)
    (bs : String → Bool → String × Bool) (s : String) (b : Bool) :
    (∀ ttl, priv.title = some ttl →
      ∃ u, (get_query_uri priv none bs s b).1
        = u ++ appendSep (rPart priv (baseOut priv bs s b).2).2 ++ "title=" ++ uriEscape ttl
            ++ (if priv.exact_title then "&title-exact=true" else "")
            ++ fPart priv (baseOut priv bs s b).2) ∧
    (priv.title = none →
      countSub tpat ((baseOut priv bs s b).1).data = 0 →
      countSub tepat ((baseOut priv bs s b).1).data = 0 →
      countSub tpat ((get_query_uri priv none bs s b).1).data = 0 ∧
      countSub tepat ((get_query_uri priv none bs s b).1).data = 0) := by
  constructor
  · intro ttl ht
    refine ⟨(baseOut priv bs s b).1 ++ (wPart priv (baseOut priv bs s b).2).1
        ++ (rPart priv (baseOut priv bs s b).2).1, ?_⟩
    show (baseOut priv bs s b).1 ++ docParams priv (baseOut priv bs s b).2 = _
    apply str_ext
    simp [docParams, tPart, titleParam, ht, sdata_append, List.append_assoc]
  · intro ht h0 h1
    have htp : countSub tpat ((tPart priv (baseOut priv bs s b).2).1).data = 0 := by
      unfold tPart
      rw [ht]
      rfl
    have htep : countSub tepat ((tPart priv (baseOut priv bs s b).2).1).data = 0 := by
      unfold tPart
      rw [ht]
      rfl
    constructor
    · rw [countSub_out (by decide) (by decide), h0, cnt_t_wPart, cnt_t_rPart,
        htp, cnt_t_fPart]
    · rw [countSub_out (by decide) (by decide), h1, cnt_te_wPart, cnt_te_rPart,
        htep, cnt_te_fPart]

/-- Witness for C5: a builder with title `"Annual Report"` and exact match
renders `title=Annual%20Report&title-exact=true`, and a builder with no title
but `exact_title` set emits neither marker. -/
theorem spec_c5_witness :
    (∃ u, (get_query_uri privT none bs0 "http://F" false).1
      = u ++ appendSep (rPart privT (baseOut privT bs0 "http://F" false).2).2
          ++ "title=" ++ uriEscape "Annual Report"
          ++ (if privT.exact_title then "&title-exact=true" else "")
          ++ fPart privT (baseOut privT bs0 "http://F" false).2) ∧
    (countSub tpat ((get_query_uri privTE none bs0 "http://F" false).1).data = 0 ∧
      countSub tepat ((get_query_uri privTE none bs0 "http://F" false).1).data = 0) := by
  constructor
  · exact (spec_c5 privT bs0 "http://F" false).1 "Annual Report" rfl
  · exact (spec_c5 privTE bs0 "http://F" false).2 rfl (by decide) (by decide)

end GDataDocs
